import Mathlib

/-!
Shallow embedding of the conversation-state management and history-sync
logic of the custom_chatbot frontend.

The authoritative current revision is src/frontend/src/App.jsx; the files
src/unnamed/part_000 and src/unnamed/part_001 are earlier revisions of the
same component (part_000 predates conversation history; part_001 adds it;
App.jsx adds bulk deletion).  The embedding models the session state held
in React useState hooks as one record, and models every network call by
its outcome, passed in explicitly: a call either throws (network error or
timeout abort, carrying the thrown message) or resolves to an HTTP
response with a status and a parsed JSON body.  Handlers additionally
return the list of HTTP requests they issued, so that properties of the
form "no request is sent" are statable.

JavaScript conventions modelled explicitly:
* a nullable string state variable is an Option String, and its JS
  truthiness is jsTruthy (null and the empty string are falsy);
* response.ok is 200 <= status < 300;
* fetchWithTimeout either returns the Response (whatever its status) or
  rejects; a timeout abort surfaces as a rejection like any network error.
-/

namespace Chatbot

/-- JS message role: the App.jsx message objects carry a field named
"type" with value "user" or "bot"; it is modelled as this enum and the
field is named role below. -/
inductive Role where
  | user
  | bot
deriving DecidableEq, Repr

/-- A chat bubble as stored in the messages state array: in App.jsx an
object with fields type, content, and (on error messages only) isError;
a missing isError is falsy, modelled by the default value false. -/
structure Message where
  role : Role
  content : String
  isError : Bool := false
deriving DecidableEq, Repr

/-- One entry of the conversations list state: GET /conversations returns
objects with id, title and created_at. -/
structure Conversation where
  id : String
  title : String
  created_at : String
deriving DecidableEq, Repr

/-- One persisted message pair of GET /conversations/:id, with fields
user_message and bot_response. -/
structure MessagePair where
  user_message : String
  bot_response : String
deriving DecidableEq, Repr

/-- Body of GET /conversations/:id responses: a title and the list of
message pairs. -/
structure ConversationDetail where
  title : String
  messages : List MessagePair
deriving DecidableEq, Repr

/-- Parsed body of a POST /chat response: the reply text and an optional
conversation_id (absent is modelled as none). -/
structure ChatData where
  response : String
  conversation_id : Option String
deriving DecidableEq, Repr

/-- An HTTP response as the fetch API presents it: a status code and the
JSON body (already parsed at the type the caller expects). -/
structure Response (α : Type) where
  status : Nat
  body : α
deriving DecidableEq, Repr

/-- response.ok of the fetch API: status in the inclusive range 200-299. -/
def Response.ok {α : Type} (r : Response α) : Bool :=
  decide (200 ≤ r.status) && decide (r.status < 300)

/-- Outcome of one fetchWithTimeout call: error msg when the promise
rejected (network failure, or the timeout abort) with thrown message msg,
ok r when a Response was returned (any status). -/
def FetchResult (α : Type) : Type := Except String (Response α)

/-- JS truthiness of a nullable string: null and the empty string are
falsy, every other string is truthy. -/
def jsTruthy : Option String → Bool
  | none => false
  | some s => !(s == "")

/-- The HTTP requests the handlers can issue, recorded in a log. -/
inductive Request where
  | getModels
  | getConversations
  | getConversationById (id : String)
  | postConversations
  | deleteConversation (id : String)
  | postChat (message : String) (model : String) (conversation_id : Option String)
deriving DecidableEq, Repr

/-- The session state of the ChatInterface component: the useState hooks
of App.jsx that the specified logic reads or writes.  Render-only state
(sidebar visibility, refs, the delete-confirmation dialog flag) is
omitted except showDeleteDialog, which handleDeleteSelected writes. -/
structure SessionState where
  messages : List Message
  inputValue : String
  isLoading : Bool
  models : List (String × String)
  selectedModel : String
  isLoadingModels : Bool
  error : Option String
  conversations : List Conversation
  currentConversationId : Option String
  selectedConversations : List String
  showDeleteDialog : Bool
deriving DecidableEq, Repr

/-- The flattening in loadConversation of src/frontend/src/App.jsx lines
170-173: data.messages.flatMap of each pair to the two-element array
[user entry, bot entry]. -/
def formattedMessages (pairs : List MessagePair) : List Message :=
  pairs.flatMap fun msg =>
    [{ role := Role.user, content := msg.user_message },
     { role := Role.bot, content := msg.bot_response }]

/-- The message conversion in loadConversation of src/unnamed/part_001
lines 166-172.  There the map callback body is a parenthesized pair of
object literals separated by a comma: a JS comma expression, which
evaluates both operands and yields only the second, the bot entry.  The
map therefore produces one bot message per pair, and the trailing .flat()
call flattens one level of arrays but the elements are plain objects, so
it returns the list unchanged.  The user entries are discarded. -/
def formattedMessages_part001 (pairs : List MessagePair) : List Message :=
  pairs.map fun msg => { role := Role.bot, content := msg.bot_response }

/-- loadConversation of App.jsx (lines 163-182) acting on the session
state, given the outcome of the GET /conversations/:id fetch: on a
rejected fetch or a non-ok status the catch block sets the error banner;
on success the messages list is replaced by the flattened pairs.
(The document.title update is presentation state and is not modelled.) -/
def loadConversation (s : SessionState) (res : FetchResult ConversationDetail) :
    SessionState :=
  match res with
  | Except.error msg =>
      { s with error := some ("Failed to load conversation: " ++ msg) }
  | Except.ok r =>
      if !r.ok then
        let msg := "Failed to load conversation: HTTP error! status: " ++ toString r.status
        { s with error := some msg }
      else
        { s with messages := formattedMessages r.body.messages }

/-- Constructor for an ordinary (non-error) user message object. -/
def userMsg (t : String) : Message :=
  { role := Role.user, content := t }

/-- Constructor for an ordinary (non-error) bot message object. -/
def botMsg (t : String) : Message :=
  { role := Role.bot, content := t }

/-- The error-flagged bot message appended by the chat-turn catch block
(App.jsx lines 290-294). -/
def errorBotMsg (msg : String) : Message :=
  { role := Role.bot,
    content := "Error: " ++ msg ++ ". Please try again later.",
    isError := true }

/-- JS String.prototype.trim as used on the input value: strips leading
and trailing whitespace characters.  (Defined by structural recursion on
the character list so that concrete inputs evaluate.) -/
def jsTrim (s : String) : String :=
  String.mk
    (((s.data.dropWhile Char.isWhitespace).reverse.dropWhile Char.isWhitespace).reverse)

/-- The condition under which the send button of ChatInterface is disabled
(App.jsx line 590): while a chat request is pending, or while the trimmed
input is empty.  A disabled button delivers no submit event; the textarea
is likewise disabled while isLoading, so no submission can be triggered
while a chat request is outstanding. -/
def submitDisabled (s : SessionState) : Bool :=
  s.isLoading || (jsTrim s.inputValue == "")

/-- The synchronous prefix of handleSubmit (App.jsx lines 242-265): the
guard returns without any state change or request when the trimmed input
is empty (JS: if (!inputValue.trim()) return); otherwise the trimmed user
message is appended optimistically, the input is cleared, the pending
flag isLoading is set and the prior error is cleared, and the POST /chat
request is issued with the message, the selected model and the current
conversation id. -/
def handleSubmitStart (s : SessionState) : Option (SessionState × Request) :=
  if jsTrim s.inputValue == "" then
    none
  else
    let userMessage := jsTrim s.inputValue
    let s0 := { s with
      messages := s.messages ++ [userMsg userMessage],
      inputValue := "",
      isLoading := true,
      error := none }
    some (s0, Request.postChat userMessage s.selectedModel s.currentConversationId)

/-- The catch block of handleSubmit (App.jsx lines 287-294): sets the
error banner and appends one bot message flagged as an error. -/
def chatCatch (s : SessionState) (msg : String) : SessionState :=
  { s with
    error := some ("Failed to send message: " ++ msg),
    messages := s.messages ++ [errorBotMsg msg] }

/-- A full chat turn: handleSubmit of App.jsx lines 242-298, given the
outcome of the POST /chat fetch and, when reached, the outcome of the
GET /conversations refresh fetch issued inside the same try block.
Returns the resulting session state and the list of requests issued.

Paths of the try block: a rejected chat fetch, or an HTTP non-ok status
(which throws Server responded with status), lands in the catch; on
success the bot reply is appended, and when data.conversation_id is
truthy while the closure variable currentConversationId is falsy, the id
is adopted and the conversation list refresh is fetched: that refresh can
itself reject, landing in the same catch, or resolve, updating the list
only when its status is ok.  The finally clause clears isLoading on every
path.

The turn is split to mirror the event loop: handleSubmitStart is the
synchronous prefix up to issuing the POST /chat request, and
handleSubmitFinish is the continuation from the first await on.  In
handleSubmitFinish, s0 is the state left by the prefix; the closure
variable currentConversationId read at line 272 is s0.currentConversationId,
which the prefix left untouched. -/
def handleSubmitFinish (s0 : SessionState) (chatReq : Request)
    (chatRes : FetchResult ChatData)
    (refreshRes : FetchResult (List Conversation)) :
    SessionState × List Request :=
  match chatRes with
    | Except.error msg =>
        ({ chatCatch s0 msg with isLoading := false }, [chatReq])
    | Except.ok resp =>
        if !resp.ok then
          let msg := "Server responded with status: " ++ toString resp.status
          ({ chatCatch s0 msg with isLoading := false }, [chatReq])
        else
          let data := resp.body
          let s1 := { s0 with messages := s0.messages ++ [botMsg data.response] }
          if jsTruthy data.conversation_id && !(jsTruthy s0.currentConversationId) then
            let s2 := { s1 with currentConversationId := data.conversation_id }
            match refreshRes with
            | Except.error msg =>
                ({ chatCatch s2 msg with isLoading := false },
                 [chatReq, Request.getConversations])
            | Except.ok r =>
                let s3 := if r.ok then { s2 with conversations := r.body } else s2
                ({ s3 with isLoading := false }, [chatReq, Request.getConversations])
          else
            ({ s1 with isLoading := false }, [chatReq])

/-- A full chat turn, from the submit event to the settling of every
request it issued: the guard path returns the state unchanged with no
request, otherwise the prefix runs and the continuation consumes the
outcomes. -/
def handleSubmit (s : SessionState)
    (chatRes : FetchResult ChatData)
    (refreshRes : FetchResult (List Conversation)) :
    SessionState × List Request :=
  match handleSubmitStart s with
  | none => (s, [])
  | some (s0, chatReq) => handleSubmitFinish s0 chatReq chatRes refreshRes

/-- The static fallback model directory of App.jsx lines 129-132. -/
def fallbackModels : List (String × String) :=
  [("gpt-3.5-turbo", "GPT-3.5 Turbo"), ("gpt-4o", "GPT-4o")]

/-- fetchModels of App.jsx lines 117-139, given the outcome of the GET
/models fetch: isLoadingModels is set and the error cleared; a rejected
fetch, or a non-ok status (which throws HTTP error! status), lands in
the catch block, which sets the error banner and installs the fixed
two-entry fallback mapping; on success the fetched mapping is installed.
The finally clause clears isLoadingModels on every path, and the
try/catch means no failure escapes the function. -/
def fetchModels (s : SessionState) (res : FetchResult (List (String × String))) :
    SessionState :=
  let s0 := { s with isLoadingModels := true, error := none }
  let s1 :=
    match res with
    | Except.error msg =>
        { s0 with
          error := some ("Failed to fetch models: " ++ msg),
          models := fallbackModels }
    | Except.ok r =>
        if !r.ok then
          let msg := "Failed to fetch models: HTTP error! status: " ++ toString r.status
          { s0 with error := some msg, models := fallbackModels }
        else
          { s0 with models := r.body }
  { s1 with isLoadingModels := false }

/-- The Promise.allSettled rejection collection of handleDeleteSelected
(App.jsx lines 361-363): the reasons of the rejected delete fetches, in
order.  A delete fetch that resolved - with any HTTP status, 2xx or not -
is fulfilled, so it contributes nothing here: response.ok is never
inspected for deletes. -/
def rejectedReasons (results : List (FetchResult Unit)) : List String :=
  results.filterMap fun r =>
    match r with
    | Except.error m => some m
    | Except.ok _ => none

/-- handleDeleteSelected of App.jsx lines 347-390, given the outcome of
each delete fetch (one per selected id, issued concurrently; dres maps
the id to its outcome) and the outcome of the GET /conversations refresh
fetch issued after all deletes settle.

Promise.allSettled never rejects, so the aggregate-error step always
runs: when at least one delete fetch rejected, the error banner is set to
the joined rejection reasons.  The refresh fetch is then awaited inside
the same try block: if it rejects, the catch overwrites the error banner
and the remaining steps are skipped; if it resolves, the list is updated
when the status is ok, the selection is cleared, and - when the original
selection (the closure variable) contains the current conversation id -
the current conversation and the message list are cleared.  Finally the
delete dialog is closed on every path. -/
def handleDeleteSelected (s : SessionState)
    (dres : String → FetchResult Unit)
    (refreshRes : FetchResult (List Conversation)) :
    SessionState × List Request :=
  let ids := s.selectedConversations
  let deleteReqs := ids.map Request.deleteConversation
  let errors := rejectedReasons (ids.map dres)
  let aggregate := "Failed to delete some conversations: " ++ String.intercalate ", " errors
  let s1 := if errors.length > 0 then { s with error := some aggregate } else s
  match refreshRes with
  | Except.error msg =>
      ({ s1 with
          error := some ("Failed to delete conversations: " ++ msg),
          showDeleteDialog := false },
       deleteReqs ++ [Request.getConversations])
  | Except.ok r =>
      let s2 := if r.ok then { s1 with conversations := r.body } else s1
      let s3 := { s2 with selectedConversations := [] }
      let s4 :=
        match s.currentConversationId with
        | some cid =>
            if s.selectedConversations.contains cid then
              { s3 with currentConversationId := none, messages := [] }
            else s3
        | none => s3
      ({ s4 with showDeleteDialog := false },
       deleteReqs ++ [Request.getConversations])

/-! ## Supporting definitions and lemmas for the theorems -/

/-- A neutral base session state: the initial hook values of
ChatInterface (empty messages and input, nothing pending, default model,
no active conversation, empty selection), used to build the concrete
states of the witnesses and counterexamples. -/
def sampleState : SessionState where
  messages := []
  inputValue := ""
  isLoading := false
  models := fallbackModels
  selectedModel := "gpt-4o"
  isLoadingModels := false
  error := none
  conversations := []
  currentConversationId := none
  selectedConversations := []
  showDeleteDialog := false

/-- Appending to a nonempty string on the right never yields the empty
string. -/
theorem append_left_ne_empty (a b : String) (ha : a ≠ "") : a ++ b ≠ "" := by
  intro hab
  apply ha
  have hd : (a ++ b).data = a.data ++ b.data := String.data_append a b
  rw [hab] at hd
  have ha' : a.data = [] := (List.append_eq_nil.mp hd.symm).1
  cases a
  simp_all

/-- The error banner set by the chat-turn catch block is never empty. -/
theorem chatCatch_error_ne_empty (s : SessionState) (msg : String) :
    ∃ e, (chatCatch s msg).error = some e ∧ e ≠ "" := by
  refine ⟨"Failed to send message: " ++ msg, rfl, ?_⟩
  exact append_left_ne_empty _ _ (by decide)

/-- Unfolding of the App.jsx flattening on a cons: the head pair yields
its user entry then its bot entry, in front of the flattened tail. -/
theorem formattedMessages_cons (p : MessagePair) (rest : List MessagePair) :
    formattedMessages (p :: rest) =
      userMsg p.user_message :: botMsg p.bot_response :: formattedMessages rest := rfl

/-- The App.jsx flattening yields exactly two entries per input pair. -/
theorem formattedMessages_length (pairs : List MessagePair) :
    (formattedMessages pairs).length = 2 * pairs.length := by
  induction pairs with
  | nil => rfl
  | cons p rest ih =>
    rw [formattedMessages_cons]
    simp only [List.length_cons, ih]
    omega

/-- In the App.jsx flattening, pair i contributes the user entry at
position 2*i and the bot entry at position 2*i+1: user-then-bot, in pair
order. -/
theorem formattedMessages_getElem (pairs : List MessagePair) (i : Nat)
    (h : i < pairs.length) :
    (formattedMessages pairs)[2 * i]? = some (userMsg pairs[i].user_message) ∧
    (formattedMessages pairs)[2 * i + 1]? = some (botMsg pairs[i].bot_response) := by
  induction pairs generalizing i with
  | nil => exact absurd h (Nat.not_lt_zero i)
  | cons p rest ih =>
    cases i with
    | zero =>
      rw [formattedMessages_cons]
      exact ⟨by simp, by simp⟩
    | succ j =>
      have hj : j < rest.length := Nat.lt_of_succ_lt_succ h
      have h1 : 2 * (j + 1) = 2 * j + 1 + 1 := by ring
      have h2 : 2 * (j + 1) + 1 = (2 * j + 1) + 1 + 1 := by ring
      refine ⟨?_, ?_⟩
      · rw [formattedMessages_cons, h1, List.getElem?_cons_succ, List.getElem?_cons_succ]
        simpa using (ih j hj).1
      · rw [formattedMessages_cons, h2, List.getElem?_cons_succ, List.getElem?_cons_succ]
        simpa using (ih j hj).2

/-- The state left by the synchronous prefix of a non-blank submission:
optimistic user message appended, input cleared, pending set, error
cleared. -/
def startedState (s : SessionState) : SessionState :=
  { s with
    messages := s.messages ++ [userMsg (jsTrim s.inputValue)],
    inputValue := "",
    isLoading := true,
    error := none }

/-- The submission guard: blank trimmed input means no prefix runs. -/
theorem handleSubmitStart_eq_none (s : SessionState) (h : jsTrim s.inputValue = "") :
    handleSubmitStart s = none := by
  unfold handleSubmitStart
  simp [h]

/-- A non-blank submission runs the prefix and issues the POST /chat
request carrying the trimmed message, the selected model and the current
conversation id. -/
theorem handleSubmitStart_eq_some (s : SessionState) (h : ¬ jsTrim s.inputValue = "") :
    handleSubmitStart s =
      some (startedState s,
        Request.postChat (jsTrim s.inputValue) s.selectedModel s.currentConversationId) := by
  unfold handleSubmitStart startedState
  simp [h]

/-- When the guard rejects, the whole turn is the identity and issues no
request. -/
theorem handleSubmit_of_start_none (s : SessionState)
    (cr : FetchResult ChatData) (rr : FetchResult (List Conversation))
    (h : handleSubmitStart s = none) :
    handleSubmit s cr rr = (s, []) := by
  unfold handleSubmit
  rw [h]

/-- Every branch of the chat-turn continuation ends with the pending
flag cleared: the finally clause of handleSubmit. -/
theorem handleSubmitFinish_isLoading (s0 : SessionState) (req : Request)
    (cr : FetchResult ChatData) (rr : FetchResult (List Conversation)) :
    (handleSubmitFinish s0 req cr rr).1.isLoading = false := by
  unfold handleSubmitFinish
  rcases cr with msg | resp
  · rfl
  · by_cases hok : resp.ok = true
    · by_cases hcond :
        (jsTruthy resp.body.conversation_id && !(jsTruthy s0.currentConversationId)) = true
      · rcases rr with msg | r
        · simp [hok, hcond]
        · by_cases hrok : r.ok = true <;> simp [hok, hcond, hrok]
      · simp [hok, hcond]
    · simp [hok]

/-- The active conversation id after a chat turn: either it is exactly
the id before the turn, or the turn had no truthy active id, the POST
/chat resolved with an ok status and a truthy conversation_id, and that
id was adopted. -/
theorem handleSubmit_id_cases (s : SessionState)
    (cr : FetchResult ChatData) (rr : FetchResult (List Conversation)) :
    (handleSubmit s cr rr).1.currentConversationId = s.currentConversationId ∨
    ∃ resp, cr = Except.ok resp ∧ resp.ok = true ∧
      jsTruthy resp.body.conversation_id = true ∧
      jsTruthy s.currentConversationId = false ∧
      (handleSubmit s cr rr).1.currentConversationId = resp.body.conversation_id := by
  by_cases htrim : jsTrim s.inputValue = ""
  · left
    rw [handleSubmit_of_start_none s cr rr (handleSubmitStart_eq_none s htrim)]
  · unfold handleSubmit
    rw [handleSubmitStart_eq_some s htrim]
    unfold handleSubmitFinish
    rcases cr with msg | resp
    · left
      simp [chatCatch, startedState]
    · by_cases hok : resp.ok = true
      · by_cases hconv : jsTruthy resp.body.conversation_id = true
        · by_cases hcur : jsTruthy s.currentConversationId = true
          · left
            simp [hok, hconv, hcur, startedState]
          · right
            have hcur' : jsTruthy s.currentConversationId = false :=
              Bool.not_eq_true _ ▸ eq_false_of_ne_true hcur
            refine ⟨resp, rfl, hok, hconv, hcur', ?_⟩
            rcases rr with msg | r
            · simp [hok, hconv, hcur', chatCatch, startedState]
            · by_cases hrok : r.ok = true <;>
                simp [hok, hconv, hcur', hrok, startedState]
        · left
          simp [hok, hconv, startedState]
      · left
        simp [hok, chatCatch, startedState]

/-! ## Claim theorems -/

/-- C1: the claim states that loading a conversation flattens each
message pair into a user entry followed by a bot entry, preserving pair
order.  The current revision (src/frontend/src/App.jsx, flatMap) does
exactly that, but the revision src/unnamed/part_001 cited by the claim
does not: evaluating both conversions on the single pair
(hi, hello) shows part_001 produces only the bot entry - its map
callback body is a comma expression that discards the user object and
the trailing .flat() is a no-op - while App.jsx produces the
user-then-bot sequence the claim describes. -/
theorem C1_part001_flattening_drops_user_entries :
    formattedMessages_part001 [{ user_message := "hi", bot_response := "hello" }] =
      [botMsg "hello"] ∧
    formattedMessages [{ user_message := "hi", bot_response := "hello" }] =
      [userMsg "hi", botMsg "hello"] :=
  ⟨rfl, rfl⟩

/-- C4: submitting input whose trim is empty is a no-op: the session
state is returned unchanged, no request is issued, and the synchronous
prefix already bails out before any state write. -/
theorem C4_blank_input_noop (s : SessionState) (chatRes : FetchResult ChatData)
    (refreshRes : FetchResult (List Conversation)) (h : jsTrim s.inputValue = "") :
    handleSubmit s chatRes refreshRes = (s, []) ∧ handleSubmitStart s = none := by
  have hstart : handleSubmitStart s = none := by
    unfold handleSubmitStart
    simp [h]
  refine ⟨?_, hstart⟩
  unfold handleSubmit
  rw [hstart]

/-- Witness for C4 at the concrete whitespace-only input. -/
theorem C4_blank_input_noop_witness :
    jsTrim "  \n " = "" ∧
    handleSubmit { sampleState with inputValue := "  \n " }
        (Except.error "x") (Except.error "x") =
      ({ sampleState with inputValue := "  \n " }, []) :=
  ⟨by decide, (C4_blank_input_noop _ _ _ (by decide)).1⟩

/-- C10: a turn whose POST /chat succeeds (HTTP 200, reply appended)
can still end in the failed state: with no prior active conversation
and a conversation_id in the response, the GET /conversations refresh
runs inside the same try block, and when it rejects the catch appends
an error-flagged bot message and sets the error banner - so this single
turn with a successful chat request appends two bot messages. -/
theorem C10_refresh_failure_after_successful_chat :
    handleSubmit { sampleState with inputValue := "hi" }
        (Except.ok ⟨200, ⟨"hello", some "c1"⟩⟩)
        (Except.error "timeout") =
      ({ sampleState with
          inputValue := "",
          isLoading := false,
          messages := [userMsg "hi", botMsg "hello", errorBotMsg "timeout"],
          error := some "Failed to send message: timeout",
          currentConversationId := some "c1" },
       [Request.postChat "hi" "gpt-4o" none, Request.getConversations]) := by
  decide

/-- C2: the active conversation id during a chat turn: whenever a truthy
active id is set, the turn leaves it unchanged for every outcome
(success with any response content, HTTP failure, rejection), because
the adoption guard at App.jsx line 272 requires a falsy current id; and
in general the id after a turn is either the id before the turn, or was
falsy and was adopted from the conversation_id of a successful chat
response - the only way a chat turn mints an active id. -/
theorem C2_active_id_immutable_once_set (s : SessionState)
    (cr : FetchResult ChatData) (rr : FetchResult (List Conversation)) :
    (jsTruthy s.currentConversationId = true →
      (handleSubmit s cr rr).1.currentConversationId = s.currentConversationId) ∧
    ((handleSubmit s cr rr).1.currentConversationId = s.currentConversationId ∨
      ∃ resp, cr = Except.ok resp ∧ resp.ok = true ∧
        jsTruthy resp.body.conversation_id = true ∧
        jsTruthy s.currentConversationId = false ∧
        (handleSubmit s cr rr).1.currentConversationId = resp.body.conversation_id) := by
  refine ⟨?_, handleSubmit_id_cases s cr rr⟩
  intro h
  rcases handleSubmit_id_cases s cr rr with hsame | ⟨resp, _, _, _, hfalse, _⟩
  · exact hsame
  · rw [h] at hfalse
    exact absurd hfalse (by simp)

/-- Witness for C2: a successful turn with an already-set active id and
a different conversation_id in the response leaves the id unchanged. -/
theorem C2_active_id_immutable_once_set_witness :
    jsTruthy (some "keep") = true ∧
    (handleSubmit { sampleState with inputValue := "hello", currentConversationId := some "keep" }
        (Except.ok ⟨200, ⟨"reply", some "other"⟩⟩)
        (Except.ok ⟨200, []⟩)).1.currentConversationId = some "keep" :=
  ⟨by decide,
   (C2_active_id_immutable_once_set
      { sampleState with inputValue := "hello", currentConversationId := some "keep" }
      (Except.ok ⟨200, ⟨"reply", some "other"⟩⟩)
      (Except.ok ⟨200, []⟩)).1 (by decide)⟩

/-- C3: a chat turn started with no active conversation id whose POST
/chat resolves ok with a truthy conversation_id adopts that id, issues
the GET /conversations refresh request, and - when that refresh resolves
ok - installs the refreshed conversation list. -/
theorem C3_adopts_minted_id_and_refreshes (s : SessionState)
    (resp : Response ChatData) (rr : FetchResult (List Conversation))
    (hstart : ¬ jsTrim s.inputValue = "")
    (hid : s.currentConversationId = none)
    (hok : resp.ok = true)
    (hconv : jsTruthy resp.body.conversation_id = true) :
    (handleSubmit s (Except.ok resp) rr).1.currentConversationId = resp.body.conversation_id ∧
    Request.getConversations ∈ (handleSubmit s (Except.ok resp) rr).2 ∧
    ∀ r, rr = Except.ok r → r.ok = true →
      (handleSubmit s (Except.ok resp) rr).1.conversations = r.body := by
  have hcur : jsTruthy s.currentConversationId = false := by
    rw [hid]; rfl
  unfold handleSubmit
  rw [handleSubmitStart_eq_some s hstart]
  unfold handleSubmitFinish
  rcases rr with msg | r
  · refine ⟨?_, ?_, ?_⟩
    · simp [hok, hconv, hcur, chatCatch, startedState]
    · simp [hok, hconv, hcur, chatCatch, startedState]
    · intro r hr
      exact absurd hr (by simp)
  · by_cases hrok : r.ok = true
    · refine ⟨?_, ?_, ?_⟩
      · simp [hok, hconv, hcur, hrok, startedState]
      · simp [hok, hconv, hcur, hrok, startedState]
      · intro r' hr' _
        have hr2 : r' = r := by
          injection hr' with h2
          exact h2.symm
        subst hr2
        simp [hok, hconv, hcur, hrok, startedState]
    · refine ⟨?_, ?_, ?_⟩
      · simp [hok, hconv, hcur, hrok, startedState]
      · simp [hok, hconv, hcur, hrok, startedState]
      · intro r' hr' hrok'
        have hr2 : r' = r := by
          injection hr' with h2
          exact h2.symm
        subst hr2
        exact absurd hrok' hrok

/-- Witness for C3 at a concrete first turn. -/
theorem C3_adopts_minted_id_and_refreshes_witness :
    (¬ jsTrim "hey" = "" ∧
     Response.ok (⟨200, (⟨"yo", some "c7"⟩ : ChatData)⟩ : Response ChatData) = true ∧
     jsTruthy (some "c7") = true) ∧
    ((handleSubmit { sampleState with inputValue := "hey" }
        (Except.ok ⟨200, ⟨"yo", some "c7"⟩⟩)
        (Except.ok ⟨200, [⟨"c7", "title", "2024-01-01"⟩]⟩)).1.currentConversationId =
          some "c7" ∧
     Request.getConversations ∈ (handleSubmit { sampleState with inputValue := "hey" }
        (Except.ok ⟨200, ⟨"yo", some "c7"⟩⟩)
        (Except.ok ⟨200, [⟨"c7", "title", "2024-01-01"⟩]⟩)).2 ∧
     ∀ r, (Except.ok ⟨200, [⟨"c7", "title", "2024-01-01"⟩]⟩ :
            FetchResult (List Conversation)) = Except.ok r → r.ok = true →
       (handleSubmit { sampleState with inputValue := "hey" }
        (Except.ok ⟨200, ⟨"yo", some "c7"⟩⟩)
        (Except.ok ⟨200, [⟨"c7", "title", "2024-01-01"⟩]⟩)).1.conversations = r.body) :=
  ⟨⟨by decide, by decide, by decide⟩,
   C3_adopts_minted_id_and_refreshes { sampleState with inputValue := "hey" }
     ⟨200, ⟨"yo", some "c7"⟩⟩
     (Except.ok ⟨200, [⟨"c7", "title", "2024-01-01"⟩]⟩)
     (by decide) (by decide) (by decide) (by decide)⟩

/-- C5: every chat turn (non-blank input, hence actually started) ends
with the pending flag cleared, on every outcome; and a turn whose POST
/chat rejects - as the timeout abort does - appends, after the optimistic
user message, exactly one bot message, flagged as an error. -/
theorem C5_pending_cleared_and_timeout_error (s : SessionState)
    (cr : FetchResult ChatData) (rr : FetchResult (List Conversation))
    (h : ¬ jsTrim s.inputValue = "") :
    (handleSubmit s cr rr).1.isLoading = false ∧
    ∀ msg, cr = Except.error msg →
      (handleSubmit s cr rr).1.messages =
        s.messages ++ [userMsg (jsTrim s.inputValue), errorBotMsg msg] := by
  constructor
  · unfold handleSubmit
    rw [handleSubmitStart_eq_some s h]
    exact handleSubmitFinish_isLoading _ _ cr rr
  · intro msg hcr
    subst hcr
    unfold handleSubmit
    rw [handleSubmitStart_eq_some s h]
    unfold handleSubmitFinish
    simp [chatCatch, startedState]

/-- Witness for C5: a turn whose chat request rejects with a timeout
abort ends idle with exactly the user message and one error bot
message appended. -/
theorem C5_pending_cleared_and_timeout_error_witness :
    (¬ jsTrim "hi there" = "") ∧
    ((handleSubmit { sampleState with inputValue := "hi there" }
        (Except.error "signal is aborted") (Except.ok ⟨200, []⟩)).1.isLoading = false ∧
     ∀ msg, (Except.error "signal is aborted" : FetchResult ChatData) = Except.error msg →
       (handleSubmit { sampleState with inputValue := "hi there" }
         (Except.error "signal is aborted") (Except.ok ⟨200, []⟩)).1.messages =
         sampleState.messages ++ [userMsg (jsTrim "hi there"), errorBotMsg msg]) :=
  ⟨by decide,
   C5_pending_cleared_and_timeout_error { sampleState with inputValue := "hi there" }
     (Except.error "signal is aborted") (Except.ok ⟨200, []⟩) (by decide)⟩

/-- C9: after a submission actually starts (the prefix ran and the POST
/chat request was issued), the session is in a state where the send
button is disabled - isLoading is true and the input has been cleared -
and where even a forced second submission is rejected by the guard: it
changes nothing and issues no second request.  The pending flag only
clears when the first turn resolves. -/
theorem C9_pending_serializes_submissions (s s1 : SessionState) (req : Request)
    (h : handleSubmitStart s = some (s1, req)) :
    submitDisabled s1 = true ∧ handleSubmitStart s1 = none ∧
    ∀ cr rr, handleSubmit s1 cr rr = (s1, []) := by
  by_cases htrim : jsTrim s.inputValue = ""
  · rw [handleSubmitStart_eq_none s htrim] at h
    exact absurd h (by simp)
  · rw [handleSubmitStart_eq_some s htrim] at h
    have hs1 : s1 = startedState s := by
      injection h with hpair
      exact (congrArg Prod.fst hpair).symm
    subst hs1
    have hempty : jsTrim (startedState s).inputValue = "" := by
      show jsTrim "" = ""
      decide
    have hnone : handleSubmitStart (startedState s) = none :=
      handleSubmitStart_eq_none _ hempty
    refine ⟨?_, hnone, ?_⟩
    · simp [submitDisabled, startedState]
    · intro cr rr
      exact handleSubmit_of_start_none _ cr rr hnone

/-- Witness for C9 at a concrete first submission. -/
theorem C9_pending_serializes_submissions_witness :
    handleSubmitStart { sampleState with inputValue := "hi" } =
      some ({ sampleState with messages := [userMsg "hi"], isLoading := true },
            Request.postChat "hi" "gpt-4o" none) ∧
    (submitDisabled { sampleState with messages := [userMsg "hi"], isLoading := true } = true ∧
     handleSubmitStart { sampleState with messages := [userMsg "hi"], isLoading := true } = none ∧
     ∀ cr rr, handleSubmit { sampleState with messages := [userMsg "hi"], isLoading := true } cr rr =
       ({ sampleState with messages := [userMsg "hi"], isLoading := true }, [])) :=
  ⟨by decide,
   C9_pending_serializes_submissions { sampleState with inputValue := "hi" }
     { sampleState with messages := [userMsg "hi"], isLoading := true }
     (Request.postChat "hi" "gpt-4o" none) (by decide)⟩

/-- C8: whenever the GET /models fetch fails - it rejected (network
failure or timeout abort), or it resolved with a non-ok status - the
catch block installs exactly the fixed two-entry fallback mapping and
sets a non-empty error message, and the loading flag is cleared; the
embedding is a total function, reflecting that the try/catch/finally
lets no failure escape fetchModels. -/
theorem C8_models_fallback_on_failure (s : SessionState)
    (res : FetchResult (List (String × String)))
    (h : ∀ r, res = Except.ok r → r.ok = false) :
    (fetchModels s res).models = fallbackModels ∧
    (fetchModels s res).isLoadingModels = false ∧
    ∃ e, (fetchModels s res).error = some e ∧ e ≠ "" := by
  rcases res with msg | r
  · exact ⟨rfl, rfl, "Failed to fetch models: " ++ msg, rfl,
      append_left_ne_empty _ _ (by decide)⟩
  · have hr : r.ok = false := h r rfl
    refine ⟨?_, ?_, "Failed to fetch models: HTTP error! status: " ++ toString r.status,
      ?_, append_left_ne_empty _ _ (by decide)⟩ <;>
      simp [fetchModels, hr]

/-- Witness for C8 at a concrete HTTP 500 model-directory response. -/
theorem C8_models_fallback_on_failure_witness :
    (∀ r, (Except.ok ⟨500, []⟩ : FetchResult (List (String × String))) = Except.ok r →
       r.ok = false) ∧
    ((fetchModels sampleState (Except.ok ⟨500, []⟩)).models = fallbackModels ∧
     (fetchModels sampleState (Except.ok ⟨500, []⟩)).isLoadingModels = false ∧
     ∃ e, (fetchModels sampleState (Except.ok ⟨500, []⟩)).error = some e ∧ e ≠ "") :=
  ⟨fun r hr => by cases hr; decide,
   C8_models_fallback_on_failure sampleState (Except.ok ⟨500, []⟩)
     (fun r hr => by cases hr; decide)⟩

/-- C6 counterexample: a bulk deletion of the single selected id c1
whose DELETE resolves with HTTP 500 - a failure per the claim's non-2xx
policy, as the first conjunct records - produces no aggregate error at
all: handleDeleteSelected never inspects response.ok of a delete, only
rejected promises are collected, so the error banner stays clear. -/
theorem C6_counterexample_http_failure_not_reported :
    Response.ok (⟨500, ()⟩ : Response Unit) = false ∧
    (handleDeleteSelected { sampleState with selectedConversations := ["c1"] }
        (fun _ => Except.ok ⟨500, ()⟩)
        (Except.ok ⟨200, []⟩)).1.error = none := by
  decide

/-- C6 as amended: only a rejected delete fetch (network error or
timeout abort) counts as a failure; a delete that resolves with a
non-2xx status is silently treated like a success.  For every bulk
deletion in which at least one delete fetch rejected, and whose
subsequent conversation-list refresh fetch resolves, the client sets the
aggregate error listing the rejection reasons, still clears the
selection, issues exactly one DELETE per selected id (no retries) plus
the one refresh request, and installs the refreshed list when the
refresh status is ok. -/
theorem C6_amended_aggregate_error_on_rejection (s : SessionState)
    (dres : String → FetchResult Unit) (r : Response (List Conversation))
    (h : rejectedReasons (s.selectedConversations.map dres) ≠ []) :
    (handleDeleteSelected s dres (Except.ok r)).1.error =
      some ("Failed to delete some conversations: " ++
        String.intercalate ", " (rejectedReasons (s.selectedConversations.map dres))) ∧
    (handleDeleteSelected s dres (Except.ok r)).1.selectedConversations = [] ∧
    (handleDeleteSelected s dres (Except.ok r)).2 =
      s.selectedConversations.map Request.deleteConversation ++ [Request.getConversations] ∧
    (r.ok = true → (handleDeleteSelected s dres (Except.ok r)).1.conversations = r.body) := by
  have hlen : 0 < (rejectedReasons (s.selectedConversations.map dres)).length :=
    List.length_pos.mpr h
  unfold handleDeleteSelected
  rcases hc : s.currentConversationId with _ | cid
  · by_cases hrok : r.ok = true <;>
      simp [hc, hlen, hrok, gt_iff_lt]
  · by_cases hrok : r.ok = true <;>
      by_cases hm : cid ∈ s.selectedConversations <;>
        simp [hc, hlen, hrok, hm, gt_iff_lt]

/-- Witness for C6 as amended: two selected ids, one delete rejects and
one resolves, the refresh resolves ok. -/
theorem C6_amended_aggregate_error_on_rejection_witness :
    rejectedReasons (["a", "b"].map
        (fun id => if id == "a" then Except.error "TypeError: Failed to fetch"
                   else Except.ok ⟨204, ()⟩)) ≠ [] ∧
    ((handleDeleteSelected { sampleState with selectedConversations := ["a", "b"] }
        (fun id => if id == "a" then Except.error "TypeError: Failed to fetch"
                   else Except.ok ⟨204, ()⟩)
        (Except.ok ⟨200, []⟩)).1.error =
      some ("Failed to delete some conversations: " ++
        String.intercalate ", " (rejectedReasons (["a", "b"].map
          (fun id => if id == "a" then Except.error "TypeError: Failed to fetch"
                     else Except.ok ⟨204, ()⟩)))) ∧
     (handleDeleteSelected { sampleState with selectedConversations := ["a", "b"] }
        (fun id => if id == "a" then Except.error "TypeError: Failed to fetch"
                   else Except.ok ⟨204, ()⟩)
        (Except.ok ⟨200, []⟩)).1.selectedConversations = [] ∧
     (handleDeleteSelected { sampleState with selectedConversations := ["a", "b"] }
        (fun id => if id == "a" then Except.error "TypeError: Failed to fetch"
                   else Except.ok ⟨204, ()⟩)
        (Except.ok ⟨200, []⟩)).2 =
      ["a", "b"].map Request.deleteConversation ++ [Request.getConversations] ∧
     ((⟨200, []⟩ : Response (List Conversation)).ok = true →
       (handleDeleteSelected { sampleState with selectedConversations := ["a", "b"] }
        (fun id => if id == "a" then Except.error "TypeError: Failed to fetch"
                   else Except.ok ⟨204, ()⟩)
        (Except.ok ⟨200, []⟩)).1.conversations = [])) :=
  ⟨by decide,
   C6_amended_aggregate_error_on_rejection
     { sampleState with selectedConversations := ["a", "b"] }
     (fun id => if id == "a" then Except.error "TypeError: Failed to fetch"
                else Except.ok ⟨204, ()⟩)
     ⟨200, []⟩ (by decide)⟩

/-- A concrete state whose active conversation c1 is the only selected
conversation and whose thread holds one message. -/
def activeSelectedState : SessionState :=
  { sampleState with
    currentConversationId := some "c1",
    selectedConversations := ["c1"],
    messages := [userMsg "hello"] }

/-- A concrete state whose active conversation c1 is selected together
with a second conversation c2. -/
def activeSelectedState2 : SessionState :=
  { sampleState with
    currentConversationId := some "c1",
    selectedConversations := ["c1", "c2"],
    messages := [userMsg "hello"] }

/-- C7 counterexample: the active conversation c1 is the only selected
id, its DELETE settles (it even succeeds with HTTP 200), but the
conversation-list refresh fetch issued afterwards rejects: the catch
block runs before the clearing steps, so the active conversation id and
the message list survive, contradicting the claim as stated. -/
theorem C7_counterexample_refresh_rejection_skips_clearing :
    (handleDeleteSelected activeSelectedState
        (fun _ => Except.ok ⟨200, ()⟩)
        (Except.error "Failed to fetch")).1.currentConversationId = some "c1" ∧
    (handleDeleteSelected activeSelectedState
        (fun _ => Except.ok ⟨200, ()⟩)
        (Except.error "Failed to fetch")).1.messages = [userMsg "hello"] := by
  decide

/-- C7 as amended: for every bulk deletion whose selected set contains
the current conversation id, provided the conversation-list refresh
fetch issued after the deletes settle resolves (with any status), the
active conversation id is cleared and the message list emptied - whatever
the outcomes of the individual deletes in the batch. -/
theorem C7_amended_clears_active_when_refresh_resolves (s : SessionState)
    (dres : String → FetchResult Unit) (r : Response (List Conversation))
    (cid : String)
    (hcur : s.currentConversationId = some cid)
    (hmem : s.selectedConversations.contains cid = true) :
    (handleDeleteSelected s dres (Except.ok r)).1.currentConversationId = none ∧
    (handleDeleteSelected s dres (Except.ok r)).1.messages = [] := by
  have hmem' : cid ∈ s.selectedConversations := by
    simpa using hmem
  unfold handleDeleteSelected
  constructor <;>
    by_cases hlen : 0 < (rejectedReasons (s.selectedConversations.map dres)).length <;>
      by_cases hrok : r.ok = true <;>
        simp [hcur, hmem', hlen, hrok, gt_iff_lt]

/-- Witness for C7 as amended: the active conversation is selected, one
other delete rejects, the refresh resolves. -/
theorem C7_amended_clears_active_when_refresh_resolves_witness :
    activeSelectedState2.currentConversationId = some "c1" ∧
    activeSelectedState2.selectedConversations.contains "c1" = true ∧
    ((handleDeleteSelected activeSelectedState2
        (fun id => if id == "c2" then Except.error "network down" else Except.ok ⟨200, ()⟩)
        (Except.ok ⟨500, []⟩)).1.currentConversationId = none ∧
     (handleDeleteSelected activeSelectedState2
        (fun id => if id == "c2" then Except.error "network down" else Except.ok ⟨200, ()⟩)
        (Except.ok ⟨500, []⟩)).1.messages = []) :=
  ⟨by decide, by decide,
   C7_amended_clears_active_when_refresh_resolves activeSelectedState2
     (fun id => if id == "c2" then Except.error "network down" else Except.ok ⟨200, ()⟩)
     ⟨500, []⟩ "c1" (by decide) (by decide)⟩

end Chatbot
